import Mathlib

/-!
Shallow embedding of the order-reassignment core of the repository:
the `Order` model (src/models/Order.js), the `OrderAssignmentService`
(src/services/orderAssignmentService.js), the `CustomerNotificationService`
(src/services/customerNotificationService.js) and the `OpenAIService`
(src/services/openaiService.js).

Dates are modelled as natural-number instants threaded through the
operations; the in-memory orders collection is modelled per order, and the
service's `assignmentTimers` map is modelled (for one order) as an
`Option String` holding the driver id of the armed timer.  JavaScript
exceptions are modelled as an `Option JsError` paired with the post state
of the store (a thrown error leaves the saved order as it was at the last
`save()`); `JsError.typeError` marks a `TypeError` raised by dereferencing
`null`, as opposed to a domain `Error` thrown on purpose.
-/

namespace OrderReassign

/-- Order status enum from src/models/Order.js (`OrderStatus`). -/
inductive OrderStatus where
  | pending
  | accepted
  | completed
  | timeout
  | cancelled
deriving DecidableEq, Repr

/-- Assignment status enum from src/models/Order.js (`AssignmentStatus`). -/
inductive AssignmentStatus where
  | pending
  | accepted
  | rejected
  | timed_out
deriving DecidableEq, Repr

/-- One entry of `driverAssignments` (src/models/Order.js). -/
structure Assignment where
  driverId : String
  status : AssignmentStatus
  assignedAt : Nat
  respondedAt : Option Nat := none
  responseTime : Option Nat := none
deriving DecidableEq, Repr

/-- One entry of `reassignmentLogs` (src/models/Order.js). -/
structure ReassignmentLog where
  previousDriverId : String
  newDriverId : String
  reason : String
  timestamp : Nat
deriving DecidableEq, Repr

/-- The `Order` model (src/models/Order.js constructor defaults: a fresh
order is `pending` with no driver and empty history). -/
structure Order where
  status : OrderStatus := .pending
  currentDriverId : Option String := none
  driverAssignments : List Assignment := []
  timeoutAt : Option Nat := none
  reassignmentCount : Nat := 0
  reassignmentLogs : List ReassignmentLog := []
  updatedAt : Nat := 0
deriving DecidableEq, Repr

/-- Boolean test used by `Array.prototype.find` in `recordDriverResponse`,
`recordReassignment` and `handleDriverTimeoutReassignment`: the assignment
belongs to `d` and is still `pending`. -/
def isPendingFor (d : String) (a : Assignment) : Bool :=
  decide (a.driverId = d ∧ a.status = AssignmentStatus.pending)

/-- Replace the first element satisfying `p` by its image under `f`
(JavaScript `find` followed by an in-place mutation of the found record). -/
def updateFirst (p : α → Bool) (f : α → α) : List α → List α
  | [] => []
  | a :: as => if p a then f a :: as else a :: updateFirst p f as

/-- `Order.prototype.addDriverAssignment` (src/models/Order.js): set
`currentDriverId`, push a fresh `pending` assignment, then set
`reassignmentCount` to the new history length minus one, and save. -/
def Order.addDriverAssignment (o : Order) (driverId : String) (now : Nat) : Order :=
  let das := o.driverAssignments ++
    [{ driverId := driverId, status := .pending, assignedAt := now }]
  { o with currentDriverId := some driverId
           driverAssignments := das
           reassignmentCount := das.length - 1
           updatedAt := now }

/-- Mutation applied to the found assignment by `recordDriverResponse`:
set the response status, `respondedAt` and the derived `responseTime`. -/
def respUpdate (status : AssignmentStatus) (now : Nat) (a : Assignment) : Assignment :=
  { a with status := status
           respondedAt := some now
           responseTime := some (now - a.assignedAt) }

/-- `Order.prototype.recordDriverResponse` (src/models/Order.js): find the
pending assignment for the driver; if none exists the method throws
`No pending assignment found for this driver`; otherwise record the
response and, on acceptance, move the order to `accepted`. -/
def Order.recordDriverResponse (o : Order) (driverId : String)
    (status : AssignmentStatus) (now : Nat) : Except String Order :=
  match o.driverAssignments.find? (isPendingFor driverId) with
  | none => .error "No pending assignment found for this driver"
  | some _ =>
    let das := updateFirst (isPendingFor driverId) (respUpdate status now)
      o.driverAssignments
    let o := { o with driverAssignments := das, updatedAt := now }
    if status = AssignmentStatus.accepted then
      .ok { o with status := OrderStatus.accepted }
    else
      .ok o

/-- `Order.prototype.recordReassignment` (src/models/Order.js): mark the
previous driver's pending assignment `timed_out` when it is still
pending, push a fresh `pending` assignment for the new driver, push a
reassignment log entry, and increment `reassignmentCount`. -/
def Order.recordReassignment (o : Order) (previousDriverId newDriverId : String)
    (reason : String) (now : Nat) : Order :=
  let das := updateFirst (isPendingFor previousDriverId)
    (respUpdate AssignmentStatus.timed_out now)
    o.driverAssignments
  { o with currentDriverId := some newDriverId
           driverAssignments := das ++
             [{ driverId := newDriverId, status := .pending, assignedAt := now }]
           reassignmentLogs := o.reassignmentLogs ++
             [{ previousDriverId := previousDriverId, newDriverId := newDriverId,
                reason := reason, timestamp := now }]
           reassignmentCount := o.reassignmentCount + 1
           updatedAt := now }

/-- `Order.prototype.markAsTimedOut` (src/models/Order.js). -/
def Order.markAsTimedOut (o : Order) (now : Nat) : Order :=
  { o with status := OrderStatus.timeout, timeoutAt := some now, updatedAt := now }

/-- Service configuration (src/services/orderAssignmentService.js
constructor): `MAX_ASSIGNMENT_ATTEMPTS`, default 5. -/
structure Config where
  maxAssignmentAttempts : Nat := 5
deriving DecidableEq, Repr

/-- The default configuration of `OrderAssignmentService`. -/
def defaultConfig : Config := {}

/-- A thrown JavaScript error: either a domain `Error` thrown on purpose or
a `TypeError` from dereferencing `null`. -/
inductive JsError where
  | domain (msg : String)
  | typeError (msg : String)
deriving DecidableEq, Repr

/-- State of one order as seen by `OrderAssignmentService`: the saved order
plus this order's entry of the `assignmentTimers` map (the driver id the
armed timer was created for, or `none`). -/
structure SvcState where
  order : Order
  timer : Option String := none
deriving DecidableEq, Repr

/-- The hard-coded mock driver pool of
`OrderAssignmentService.getNextAvailableDriver`. -/
def availableDrivers : List String :=
  [ "6123456789abcdef01234567"
  , "6123456789abcdef01234568"
  , "6123456789abcdef01234569"
  , "6123456789abcdef01234570"
  , "6123456789abcdef01234571" ]

/-- `OrderAssignmentService.getNextAvailableDriver`: `null` when the number
of drivers already tried has reached `maxAssignmentAttempts`, otherwise the
first pool driver not yet present in `driverAssignments`. -/
def getNextAvailableDriver (cfg : Config) (o : Order) : Option String :=
  let previousDriverIds := o.driverAssignments.map (·.driverId)
  if cfg.maxAssignmentAttempts ≤ previousDriverIds.length then
    none
  else
    availableDrivers.find? (fun d => !(previousDriverIds.contains d))

/-- `OrderAssignmentService.assignOrderToDriver`: throws when the order is
not `pending`; otherwise `addDriverAssignment` and arm the
auto-reassignment timer (`setupAutoReassignment` replaces any existing
timer for the order). -/
def assignOrderToDriver (_cfg : Config) (s : SvcState) (driverId : String)
    (now : Nat) : SvcState × Option JsError :=
  if s.order.status = OrderStatus.pending then
    ({ order := s.order.addDriverAssignment driverId now, timer := some driverId }, none)
  else
    (s, some (.domain "Cannot assign: order is not pending"))

/-- `OrderAssignmentService.handleDriverTimeoutReassignment`: if the driver
no longer has a pending assignment the handler returns the order untouched;
if no next driver is available the order is marked timed out and the timer
is removed; otherwise the order is reassigned and a fresh timer armed. -/
def handleDriverTimeoutReassignment (cfg : Config) (s : SvcState)
    (driverId : String) (now : Nat) : SvcState × Option JsError :=
  match s.order.driverAssignments.find? (isPendingFor driverId) with
  | none => (s, none)
  | some _ =>
    match getNextAvailableDriver cfg s.order with
    | none =>
      ({ order := s.order.markAsTimedOut now, timer := none }, none)
    | some next =>
      ({ order := s.order.recordReassignment driverId next "TIMEOUT" now,
         timer := some next }, none)

/-- `OrderAssignmentService.handleDriverResponse`: dereferences
`order.currentDriverId.toString()` (a `TypeError` when it is `null`),
rejects a driver that is not the current assignee, clears the timer,
records the response (`recordDriverResponse` throws when no pending
assignment exists), and on rejection reassigns or times the order out. -/
def handleDriverResponse (cfg : Config) (s : SvcState) (driverId : String)
    (accepted : Bool) (now : Nat) : SvcState × Option JsError :=
  match s.order.currentDriverId with
  | none =>
    (s, some (.typeError "Cannot read properties of null (reading toString)"))
  | some cur =>
    if cur = driverId then
      let s1 : SvcState := { s with timer := none }
      let status := if accepted then AssignmentStatus.accepted else AssignmentStatus.rejected
      match s1.order.recordDriverResponse driverId status now with
      | .error e => (s1, some (.domain e))
      | .ok o =>
        if accepted then
          ({ order := o, timer := none }, none)
        else
          match getNextAvailableDriver cfg o with
          | none => ({ order := o.markAsTimedOut now, timer := none }, none)
          | some next =>
            ({ order := o.recordReassignment driverId next "REJECTION" now,
               timer := some next }, none)
    else
      (s, some (.domain "Driver is not currently assigned to this order"))

/-- A fresh order as created by the `Order` constructor with no prior data:
`pending`, no current driver, empty history and logs. -/
def freshState : SvcState := { order := {} }

/-- One application of any of the three externally triggerable service
operations to the state of one order (the post state of the store and
timer map, whether or not the operation threw). -/
inductive AnyStep (cfg : Config) : SvcState → SvcState → Prop where
  | assign (s : SvcState) (d : String) (now : Nat) :
      AnyStep cfg s (assignOrderToDriver cfg s d now).1
  | response (s : SvcState) (d : String) (accepted : Bool) (now : Nat) :
      AnyStep cfg s (handleDriverResponse cfg s d accepted now).1
  | timeoutFire (s : SvcState) (d : String) (now : Nat) :
      AnyStep cfg s (handleDriverTimeoutReassignment cfg s d now).1

/-- States of one order reachable from a fresh order by any sequence of
`assignOrderToDriver`, `handleDriverResponse` and
`handleDriverTimeoutReassignment` calls. -/
inductive ReachableAny (cfg : Config) : SvcState → Prop where
  | init : ReachableAny cfg freshState
  | step {s t : SvcState} : ReachableAny cfg s → AnyStep cfg s t → ReachableAny cfg t

/-- One application of `handleDriverResponse` or
`handleDriverTimeoutReassignment` (the internally driven operations: no
external re-`Offer`). -/
inductive RespondOrTimeoutStep (cfg : Config) : SvcState → SvcState → Prop where
  | response (s : SvcState) (d : String) (accepted : Bool) (now : Nat) :
      RespondOrTimeoutStep cfg s (handleDriverResponse cfg s d accepted now).1
  | timeoutFire (s : SvcState) (d : String) (now : Nat) :
      RespondOrTimeoutStep cfg s (handleDriverTimeoutReassignment cfg s d now).1

/-- States of one order reachable from a fresh order by one initial
`assignOrderToDriver` followed by any sequence of driver responses and
timeout firings. -/
inductive ReachableFromAssign (cfg : Config) : SvcState → Prop where
  | init (d : String) (now : Nat) :
      ReachableFromAssign cfg (assignOrderToDriver cfg freshState d now).1
  | step {s t : SvcState} :
      ReachableFromAssign cfg s → RespondOrTimeoutStep cfg s t → ReachableFromAssign cfg t

/-- Number of `pending` entries of `driverAssignments`. -/
def pendingCount (o : Order) : Nat :=
  (o.driverAssignments.filter (fun a => a.status = AssignmentStatus.pending)).length

/-- Shape of the assignment history maintained by the service once a first
driver has been assigned: the history is a front of already resolved
(non-`pending`) assignments followed by one last assignment, and
`currentDriverId` is that last assignment's driver. -/
def HistoryShape (s : SvcState) : Prop :=
  ∃ front last, s.order.driverAssignments = front ++ [last] ∧
    (∀ a ∈ front, a.status ≠ AssignmentStatus.pending) ∧
    s.order.currentDriverId = some last.driverId

section Notifications

/-- The snapshot returned by `OrderAssignmentService.getOrderStatus` as
consumed by the notification and text-generation services (the fields the
prompts and fallback messages read). -/
structure OrderView where
  orderId : String
  status : String
  reassignmentCount : Nat
deriving DecidableEq, Repr

/-- `OpenAIService.getFallbackMessage` (src/services/openaiService.js):
the canned message table used when the API call fails. -/
def getFallbackMessage (orderData : OrderView) (queryType : String) : String :=
  if queryType = "reassignment_reason" then
    "Estamos reatribuindo seu pedido #" ++ orderData.orderId ++
      " para outro motorista para garantir a entrega mais rápida possível. Pedimos desculpas pelo inconveniente."
  else if queryType = "delay_explanation" then
    "Pedimos desculpas pelo atraso no seu pedido #" ++ orderData.orderId ++
      ". Estamos trabalhando para entregá-lo o mais rápido possível."
  else if queryType = "timeout_explanation" then
    "Infelizmente, não conseguimos encontrar um motorista disponível para seu pedido #" ++
      orderData.orderId ++ " após várias tentativas. Por favor, entre em contato com nosso suporte para assistência."
  else
    "O status atual do seu pedido #" ++ orderData.orderId ++ " é: " ++
      orderData.status ++ ". Obrigado pela paciência."

/-- `OpenAIService.generateOrderStatusMessage`: the whole prompt build, API
call and content extraction sit in one `try` block whose result is modelled
by `apiResult`; a successful call returns the trimmed content and any
thrown error is caught and replaced by the fallback message for the query
type. The function returns a `String`, never a thrown error. -/
def generateOrderStatusMessage (orderData : OrderView) (queryType : String)
    (apiResult : Except String String) : String :=
  match apiResult with
  | .ok content => content.trim
  | .error _ => getFallbackMessage orderData queryType

/-- Configuration of `CustomerNotificationService`:
`ENABLE_REASSIGNMENT_NOTIFICATIONS` and `MAX_NOTIFICATIONS_PER_ORDER`
(default 3). -/
structure NotifConfig where
  enableReassignmentNotifications : Bool
  maxNotificationsPerOrder : Nat := 3

/-- The `notificationCounters` map of `CustomerNotificationService`
(`Map.get ... || 0` semantics). -/
structure NotifState where
  counters : String → Nat

/-- `CustomerNotificationService.getNotificationCount`. -/
def getNotificationCount (ns : NotifState) (orderId : String) : Nat :=
  ns.counters orderId

/-- `CustomerNotificationService.shouldLimitNotifications`. -/
def shouldLimitNotifications (cfg : NotifConfig) (ns : NotifState)
    (orderId : String) : Bool :=
  cfg.maxNotificationsPerOrder ≤ getNotificationCount ns orderId

/-- `CustomerNotificationService.incrementNotificationCounter`. -/
def incrementNotificationCounter (ns : NotifState) (orderId : String) : NotifState :=
  { counters := fun id =>
      if id = orderId then getNotificationCount ns orderId + 1 else ns.counters id }

/-- The object returned by the notification methods: `success`, an optional
`message`, an optional `skipped` flag and an optional `error` field. -/
structure NotifResult where
  success : Bool
  message : Option String := none
  skipped : Bool := false
  error : Option String := none
deriving DecidableEq, Repr

/-- `CustomerNotificationService.notifyCustomerAboutOrderStatus`: refuse
when the per-order cap is reached; otherwise look the order up
(`getOrderStatus` throws `Order not found` when it does not exist, caught
into a failure result), generate the message via
`OpenAIService.generateOrderStatusMessage` — modelled by the total
function `gen` — increment the counter and report success. -/
def notifyCustomerAboutOrderStatus (cfg : NotifConfig) (ns : NotifState)
    (orderId : String) (lookup : Option OrderView)
    (gen : OrderView → String → String) (queryType : String) :
    NotifResult × NotifState :=
  if shouldLimitNotifications cfg ns orderId then
    ({ success := false, message := some "Notification limit reached for this order" }, ns)
  else
    match lookup with
    | none => ({ success := false, error := some "Order not found" }, ns)
    | some view =>
      ({ success := true, message := some (gen view queryType) },
       incrementNotificationCounter ns orderId)

/-- `CustomerNotificationService.notifyCustomerAboutReassignment`: skip
when reassignment notifications are disabled or when `reassignmentCount`
is at most 1; otherwise delegate with query type `reassignment_reason`. -/
def notifyCustomerAboutReassignment (cfg : NotifConfig) (ns : NotifState)
    (orderId : String) (lookup : Option OrderView)
    (gen : OrderView → String → String) (reassignmentCount : Nat) :
    NotifResult × NotifState :=
  if !cfg.enableReassignmentNotifications then
    ({ success := false, skipped := true }, ns)
  else if reassignmentCount ≤ 1 then
    ({ success := false, skipped := true }, ns)
  else
    notifyCustomerAboutOrderStatus cfg ns orderId lookup gen "reassignment_reason"

/-- `CustomerNotificationService.notifyCustomerAboutTimeout`: delegates to
`notifyCustomerAboutOrderStatus` with query type `timeout_explanation`. -/
def notifyCustomerAboutTimeout (cfg : NotifConfig) (ns : NotifState)
    (orderId : String) (lookup : Option OrderView)
    (gen : OrderView → String → String) : NotifResult × NotifState :=
  notifyCustomerAboutOrderStatus cfg ns orderId lookup gen "timeout_explanation"

end Notifications

/-- Runs of `handleDriverTimeoutReassignment`, fired for the current
driver, in which a next candidate is available each time (the reassignment
branch of the handler). `ConsecTimeouts cfg s0 n s` holds when `s` results
from `n` such consecutive timeout firings starting at `s0`. -/
inductive ConsecTimeouts (cfg : Config) (s0 : SvcState) : Nat → SvcState → Prop where
  | zero : ConsecTimeouts cfg s0 0 s0
  | succ {n : Nat} {s : SvcState} {d : String} {now : Nat} :
      ConsecTimeouts cfg s0 n s →
      s.order.currentDriverId = some d →
      (getNextAvailableDriver cfg s.order).isSome = true →
      ConsecTimeouts cfg s0 (n + 1) (handleDriverTimeoutReassignment cfg s d now).1

/-- Whether a (possibly absent) thrown error is a domain `Error`. -/
def isDomainError : Option JsError → Bool
  | some (.domain _) => true
  | _ => false

/-- Whether a (possibly absent) thrown error is a `TypeError` (a null
dereference). -/
def isTypeError : Option JsError → Bool
  | some (.typeError _) => true
  | _ => false

/-- Six consecutive external `assignOrderToDriver` calls on a fresh
(pending) order, one per driver id `d1` … `d6`. -/
def assignSix : SvcState :=
  (assignOrderToDriver defaultConfig
    ((assignOrderToDriver defaultConfig
      ((assignOrderToDriver defaultConfig
        ((assignOrderToDriver defaultConfig
          ((assignOrderToDriver defaultConfig
            ((assignOrderToDriver defaultConfig freshState "d1" 1).1)
            "d2" 2).1)
          "d3" 3).1)
        "d4" 4).1)
      "d5" 5).1)
    "d6" 6).1

/-- Two consecutive external `assignOrderToDriver` calls on a fresh
(pending) order, first driver `A`, then driver `B`. -/
def assignTwo : SvcState :=
  (assignOrderToDriver defaultConfig
    ((assignOrderToDriver defaultConfig freshState "A" 1).1) "B" 2).1

/-- An order whose single assignment to driver `A` has already been
accepted: the current assignment is no longer pending. -/
def respondedState : SvcState :=
  { order := { status := .accepted
               currentDriverId := some "A"
               driverAssignments :=
                 [{ driverId := "A", status := .accepted, assignedAt := 0,
                    respondedAt := some 1, responseTime := some 1 }]
               updatedAt := 1 } }

/-- An order that has tried all five pool drivers: the first four timed
out and the fifth still holds the open (pending) offer. -/
def exhaustedPendingState : SvcState :=
  { order := { status := .pending
               currentDriverId := some "6123456789abcdef01234571"
               driverAssignments :=
                 [ { driverId := "6123456789abcdef01234567", status := .timed_out,
                     assignedAt := 0, respondedAt := some 15, responseTime := some 15 }
                 , { driverId := "6123456789abcdef01234568", status := .timed_out,
                     assignedAt := 15, respondedAt := some 30, responseTime := some 15 }
                 , { driverId := "6123456789abcdef01234569", status := .timed_out,
                     assignedAt := 30, respondedAt := some 45, responseTime := some 15 }
                 , { driverId := "6123456789abcdef01234570", status := .timed_out,
                     assignedAt := 45, respondedAt := some 60, responseTime := some 15 }
                 , { driverId := "6123456789abcdef01234571", status := .pending,
                     assignedAt := 60 } ]
               reassignmentCount := 4
               updatedAt := 60 }
    timer := some "6123456789abcdef01234571" }

/-- The state after one assignment of a fresh order to driver `d0` at
instant 0 (base state of the claim 6 witness). -/
def oneAssignState : SvcState :=
  (assignOrderToDriver defaultConfig freshState "d0" 0).1

/-- The state after that first assignment times out once at instant 20
with pool driver 1 available as the next candidate. -/
def oneTimeoutState : SvcState :=
  (handleDriverTimeoutReassignment defaultConfig oneAssignState "d0" 20).1

/-- Notification counters for the claim 8 failing input: three
notifications were already sent for every order (the per-order cap). -/
def cappedCounters : NotifState := { counters := fun _ => 3 }

/-- Notification configuration with reassignment notifications enabled and
the default cap of 3. -/
def notifCfgEnabled : NotifConfig := { enableReassignmentNotifications := true }

/-- Snapshot of an exhausted (timed out) order as seen by the notification
service. -/
def timedOutView : OrderView :=
  { orderId := "o1", status := "timeout", reassignmentCount := 5 }

/-- Notification counters with no notification sent yet for any order. -/
def zeroCounters : NotifState := { counters := fun _ => 0 }

/-- Snapshot of a fresh pending order as seen by the text generator. -/
def pendingView : OrderView :=
  { orderId := "o1", status := "pending", reassignmentCount := 0 }

theorem isPendingFor_iff {d : String} {a : Assignment} :
    isPendingFor d a = true ↔ a.driverId = d ∧ a.status = AssignmentStatus.pending := by
  simp [isPendingFor]

theorem respUpdate_driverId (st : AssignmentStatus) (now : Nat) (a : Assignment) :
    (respUpdate st now a).driverId = a.driverId := rfl

theorem respUpdate_status (st : AssignmentStatus) (now : Nat) (a : Assignment) :
    (respUpdate st now a).status = st := rfl

theorem updateFirst_length (p : α → Bool) (f : α → α) (l : List α) :
    (updateFirst p f l).length = l.length := by
  induction l with
  | nil => rfl
  | cons a as ih =>
    simp only [updateFirst]
    split <;> simp [ih]

theorem updateFirst_of_forall_neg {p : α → Bool} {f : α → α} {l : List α}
    (h : ∀ a ∈ l, ¬ p a) : updateFirst p f l = l := by
  induction l with
  | nil => rfl
  | cons a as ih =>
    simp only [updateFirst]
    rw [if_neg (by simpa using h a (List.mem_cons_self a as))]
    rw [ih fun x hx => h x (List.mem_cons_of_mem a hx)]

theorem find?_append_last_pos {p : α → Bool} {front : List α} {last : α}
    (hf : ∀ a ∈ front, ¬ p a) (hl : p last) :
    (front ++ [last]).find? p = some last := by
  induction front with
  | nil => rw [List.nil_append]; exact List.find?_cons_of_pos _ hl
  | cons a as ih =>
    rw [List.cons_append, List.find?_cons_of_neg _ (hf a (List.mem_cons_self a as))]
    exact ih fun x hx => hf x (List.mem_cons_of_mem a hx)

theorem find?_append_last_neg {p : α → Bool} {front : List α} {last : α}
    (hf : ∀ a ∈ front, ¬ p a) (hl : ¬ p last) :
    (front ++ [last]).find? p = none := by
  rw [List.find?_eq_none]
  intro x hx
  rcases List.mem_append.1 hx with h | h
  · exact hf x h
  · rw [List.mem_singleton.1 h]
    exact hl

theorem updateFirst_append_last_pos {p : α → Bool} {f : α → α} {front : List α} {last : α}
    (hf : ∀ a ∈ front, ¬ p a) (hl : p last) :
    updateFirst p f (front ++ [last]) = front ++ [f last] := by
  induction front with
  | nil => simp [updateFirst, hl]
  | cons a as ih =>
    rw [List.cons_append, updateFirst, if_neg (by simpa using hf a (List.mem_cons_self a as))]
    rw [ih fun x hx => hf x (List.mem_cons_of_mem a hx)]
    rfl

theorem getNext_isSome_length_lt {cfg : Config} {o : Order}
    (h : (getNextAvailableDriver cfg o).isSome = true) :
    o.driverAssignments.length < cfg.maxAssignmentAttempts := by
  by_cases hle : cfg.maxAssignmentAttempts ≤ o.driverAssignments.length
  · rw [getNextAvailableDriver] at h
    simp [List.length_map, hle] at h
  · omega

theorem recordDriverResponse_ok {o : Order} {d : String} {st : AssignmentStatus}
    {now : Nat} {o' : Order} (h : o.recordDriverResponse d st now = Except.ok o') :
    o'.driverAssignments =
      updateFirst (isPendingFor d) (respUpdate st now) o.driverAssignments ∧
    o'.currentDriverId = o.currentDriverId ∧
    o'.reassignmentCount = o.reassignmentCount ∧
    o'.reassignmentLogs = o.reassignmentLogs := by
  rw [Order.recordDriverResponse] at h
  cases hf : o.driverAssignments.find? (isPendingFor d) with
  | none => rw [hf] at h; cases h
  | some a =>
    rw [hf] at h
    simp only [] at h
    split at h <;> (cases h; exact ⟨rfl, rfl, rfl, rfl⟩)

theorem shape_timeoutFire {cfg : Config} {s : SvcState} (d : String) (now : Nat)
    (hs : HistoryShape s) :
    HistoryShape (handleDriverTimeoutReassignment cfg s d now).1 := by
  obtain ⟨front, last, hdas, hfr, hcur⟩ := hs
  have hfr' : ∀ a ∈ front, ¬ isPendingFor d a = true := fun a ha hpa =>
    hfr a ha (isPendingFor_iff.1 hpa).2
  by_cases hpl : isPendingFor d last = true
  · simp only [handleDriverTimeoutReassignment, hdas, find?_append_last_pos hfr' hpl]
    cases hn : getNextAvailableDriver cfg s.order with
    | none =>
      exact ⟨front, last, hdas, hfr, hcur⟩
    | some next =>
      refine ⟨front ++ [respUpdate AssignmentStatus.timed_out now last],
        { driverId := next, status := .pending, assignedAt := now }, ?_, ?_, rfl⟩
      · show updateFirst (isPendingFor d) (respUpdate AssignmentStatus.timed_out now)
          s.order.driverAssignments ++ [_] = _
        rw [hdas, updateFirst_append_last_pos hfr' hpl, List.append_assoc]
      · intro a ha
        rcases List.mem_append.1 ha with h | h
        · exact hfr a h
        · rw [List.mem_singleton.1 h, respUpdate_status]
          simp
  · simp only [handleDriverTimeoutReassignment, hdas, find?_append_last_neg hfr' hpl]
    exact ⟨front, last, hdas, hfr, hcur⟩

theorem handleDriverResponse_accept_eq {cfg : Config} {s : SvcState} {d : String}
    (now : Nat) (hcur : s.order.currentDriverId = some d) :
    handleDriverResponse cfg s d true now =
      (match s.order.recordDriverResponse d AssignmentStatus.accepted now with
       | .error e => ({ s with timer := none }, some (JsError.domain e))
       | .ok o => ({ order := o, timer := none }, none)) := by
  rw [handleDriverResponse, hcur]
  dsimp only
  rw [if_pos rfl]
  rfl

theorem handleDriverResponse_reject_eq {cfg : Config} {s : SvcState} {d : String}
    (now : Nat) (hcur : s.order.currentDriverId = some d) :
    handleDriverResponse cfg s d false now =
      (match s.order.recordDriverResponse d AssignmentStatus.rejected now with
       | .error e => ({ s with timer := none }, some (JsError.domain e))
       | .ok o =>
         match getNextAvailableDriver cfg o with
         | none => ({ order := o.markAsTimedOut now, timer := none }, none)
         | some next =>
           ({ order := o.recordReassignment d next "REJECTION" now,
              timer := some next }, none)) := by
  rw [handleDriverResponse, hcur]
  dsimp only
  rw [if_pos rfl]
  rfl

theorem handleDriverResponse_not_cur_eq {cfg : Config} {s : SvcState} {d cur : String}
    (acc : Bool) (now : Nat) (hcur : s.order.currentDriverId = some cur)
    (hne : ¬ cur = d) :
    handleDriverResponse cfg s d acc now =
      (s, some (JsError.domain "Driver is not currently assigned to this order")) := by
  rw [handleDriverResponse, hcur]
  dsimp only
  rw [if_neg hne]

theorem shape_response {cfg : Config} {s : SvcState} (d : String) (acc : Bool) (now : Nat)
    (hs : HistoryShape s) :
    HistoryShape (handleDriverResponse cfg s d acc now).1 := by
  obtain ⟨front, last, hdas, hfr, hcur⟩ := hs
  have hfr' : ∀ a ∈ front, ¬ isPendingFor d a = true := fun a ha hpa =>
    hfr a ha (isPendingFor_iff.1 hpa).2
  by_cases hd : last.driverId = d
  · have hcd : s.order.currentDriverId = some d := by rw [hcur, hd]
    by_cases hpl : last.status = AssignmentStatus.pending
    · have hpf : isPendingFor d last = true := isPendingFor_iff.2 ⟨hd, hpl⟩
      cases acc with
      | true =>
        have hrec : s.order.recordDriverResponse d AssignmentStatus.accepted now =
            Except.ok { s.order with
              driverAssignments := front ++ [respUpdate AssignmentStatus.accepted now last]
              updatedAt := now
              status := OrderStatus.accepted } := by
          rw [Order.recordDriverResponse, hdas, find?_append_last_pos hfr' hpf]
          dsimp only
          rw [if_pos rfl, updateFirst_append_last_pos hfr' hpf]
        rw [handleDriverResponse_accept_eq now hcd, hrec]
        exact ⟨front, respUpdate AssignmentStatus.accepted now last, rfl, hfr, hcur⟩
      | false =>
        have hrec : s.order.recordDriverResponse d AssignmentStatus.rejected now =
            Except.ok { s.order with
              driverAssignments := front ++ [respUpdate AssignmentStatus.rejected now last]
              updatedAt := now } := by
          rw [Order.recordDriverResponse, hdas, find?_append_last_pos hfr' hpf]
          dsimp only
          rw [if_neg (by simp), updateFirst_append_last_pos hfr' hpf]
        have hfr2 : ∀ a ∈ front ++ [respUpdate AssignmentStatus.rejected now last],
            ¬ isPendingFor d a = true := by
          intro a ha hpa
          rcases List.mem_append.1 ha with h | h
          · exact hfr' a h hpa
          · rw [List.mem_singleton.1 h] at hpa
            have hst := (isPendingFor_iff.1 hpa).2
            rw [respUpdate_status] at hst
            cases hst
        rw [handleDriverResponse_reject_eq now hcd, hrec]
        dsimp only
        cases hn : getNextAvailableDriver cfg { s.order with
            driverAssignments := front ++ [respUpdate AssignmentStatus.rejected now last]
            updatedAt := now } with
        | none =>
          exact ⟨front, respUpdate AssignmentStatus.rejected now last, rfl, hfr, hcur⟩
        | some next =>
          refine ⟨front ++ [respUpdate AssignmentStatus.rejected now last],
            { driverId := next, status := .pending, assignedAt := now }, ?_, ?_, rfl⟩
          · show updateFirst (isPendingFor d) (respUpdate AssignmentStatus.timed_out now)
              (front ++ [respUpdate AssignmentStatus.rejected now last]) ++ [_] = _
            rw [updateFirst_of_forall_neg hfr2]
          · intro a ha
            rcases List.mem_append.1 ha with h | h
            · exact hfr a h
            · rw [List.mem_singleton.1 h, respUpdate_status]
              simp
    · have hnf : (front ++ [last]).find? (isPendingFor d) = none := by
        refine find?_append_last_neg hfr' ?_
        intro hpa
        exact hpl (isPendingFor_iff.1 hpa).2
      have hrec : ∀ st : AssignmentStatus,
          s.order.recordDriverResponse d st now =
            Except.error "No pending assignment found for this driver" := fun st => by
        rw [Order.recordDriverResponse, hdas, hnf]
      cases acc with
      | true =>
        rw [handleDriverResponse_accept_eq now hcd, hrec]
        exact ⟨front, last, hdas, hfr, hcur⟩
      | false =>
        rw [handleDriverResponse_reject_eq now hcd, hrec]
        exact ⟨front, last, hdas, hfr, hcur⟩
  · rw [handleDriverResponse_not_cur_eq acc now hcur fun h => hd h]
    exact ⟨front, last, hdas, hfr, hcur⟩

theorem length_timeoutFire {cfg : Config} {s : SvcState} (d : String) (now : Nat)
    (h : s.order.driverAssignments.length ≤ cfg.maxAssignmentAttempts) :
    (handleDriverTimeoutReassignment cfg s d now).1.order.driverAssignments.length ≤
      cfg.maxAssignmentAttempts := by
  rw [handleDriverTimeoutReassignment]
  cases hf : s.order.driverAssignments.find? (isPendingFor d) with
  | none => exact h
  | some a =>
    dsimp only
    cases hn : getNextAvailableDriver cfg s.order with
    | none => exact h
    | some next =>
      have hlt := @getNext_isSome_length_lt cfg s.order (by rw [hn]; rfl)
      dsimp only
      show (updateFirst _ _ s.order.driverAssignments ++ [_]).length ≤ _
      rw [List.length_append, updateFirst_length]
      simp only [List.length_singleton]
      omega

theorem length_response {cfg : Config} {s : SvcState} (d : String) (acc : Bool) (now : Nat)
    (h : s.order.driverAssignments.length ≤ cfg.maxAssignmentAttempts) :
    (handleDriverResponse cfg s d acc now).1.order.driverAssignments.length ≤
      cfg.maxAssignmentAttempts := by
  cases hc : s.order.currentDriverId with
  | none => rw [handleDriverResponse, hc]; exact h
  | some cur =>
    by_cases hd : cur = d
    · subst hd
      cases acc with
      | true =>
        rw [handleDriverResponse_accept_eq now hc]
        cases hr : s.order.recordDriverResponse cur AssignmentStatus.accepted now with
        | error e => exact h
        | ok o =>
          dsimp only
          rw [(recordDriverResponse_ok hr).1, updateFirst_length]
          exact h
      | false =>
        rw [handleDriverResponse_reject_eq now hc]
        cases hr : s.order.recordDriverResponse cur AssignmentStatus.rejected now with
        | error e => exact h
        | ok o =>
          have ho : o.driverAssignments.length = s.order.driverAssignments.length := by
            rw [(recordDriverResponse_ok hr).1, updateFirst_length]
          dsimp only
          cases hn : getNextAvailableDriver cfg o with
          | none =>
            show o.driverAssignments.length ≤ _
            rw [ho]; exact h
          | some next =>
            have hlt := @getNext_isSome_length_lt cfg o (by rw [hn]; rfl)
            dsimp only
            show (updateFirst _ _ o.driverAssignments ++ [_]).length ≤ _
            rw [List.length_append, updateFirst_length]
            simp only [List.length_singleton]
            omega
    · rw [handleDriverResponse_not_cur_eq acc now hc hd]
      exact h

theorem reachable_shape {cfg : Config} {s : SvcState}
    (h : ReachableFromAssign cfg s) : HistoryShape s := by
  induction h with
  | init d now =>
    exact ⟨[], { driverId := d, status := .pending, assignedAt := now }, rfl, by simp, rfl⟩
  | step hr hst ih =>
    cases hst with
    | response d acc now => exact shape_response d acc now ih
    | timeoutFire d now => exact shape_timeoutFire d now ih

theorem reachable_length {cfg : Config} {s : SvcState}
    (hM : 1 ≤ cfg.maxAssignmentAttempts) (h : ReachableFromAssign cfg s) :
    s.order.driverAssignments.length ≤ cfg.maxAssignmentAttempts := by
  induction h with
  | init d now => exact hM
  | step hr hst ih =>
    cases hst with
    | response d acc now => exact length_response d acc now ih
    | timeoutFire d now => exact length_timeoutFire d now ih

theorem recordReassignment_status (o : Order) (p n r : String) (now : Nat) :
    (o.recordReassignment p n r now).status = o.status := rfl

theorem recordReassignment_count (o : Order) (p n r : String) (now : Nat) :
    (o.recordReassignment p n r now).reassignmentCount = o.reassignmentCount + 1 := rfl

theorem recordReassignment_logs (o : Order) (p n r : String) (now : Nat) :
    (o.recordReassignment p n r now).reassignmentLogs =
      o.reassignmentLogs ++
        [{ previousDriverId := p, newDriverId := n, reason := r, timestamp := now }] := rfl

theorem recordReassignment_das (o : Order) (p n r : String) (now : Nat) :
    (o.recordReassignment p n r now).driverAssignments =
      updateFirst (isPendingFor p) (respUpdate AssignmentStatus.timed_out now)
        o.driverAssignments ++
        [{ driverId := n, status := .pending, assignedAt := now }] := rfl

theorem recordReassignment_current (o : Order) (p n r : String) (now : Nat) :
    (o.recordReassignment p n r now).currentDriverId = some n := rfl

/-- C1 (counterexample): the claimed invariant
`driverAssignments.length ≤ maxAssignmentAttempts` does not hold over all
sequences of the three operations: six external `assignOrderToDriver`
calls on a fresh (still pending) order are all accepted by the service —
`assignOrderToDriver` checks only the order status, never the history
length — and leave a history of 6 assignments, above the default cap
of 5. -/
theorem claim1_counterexample :
    ReachableAny defaultConfig assignSix ∧
    assignSix.order.driverAssignments.length = 6 ∧
    ¬ assignSix.order.driverAssignments.length ≤ defaultConfig.maxAssignmentAttempts := by
  refine ⟨?_, by decide, by decide⟩
  exact ReachableAny.step (ReachableAny.step (ReachableAny.step (ReachableAny.step
    (ReachableAny.step (ReachableAny.step ReachableAny.init
      (AnyStep.assign freshState "d1" 1))
      (AnyStep.assign _ "d2" 2))
      (AnyStep.assign _ "d3" 3))
      (AnyStep.assign _ "d4" 4))
      (AnyStep.assign _ "d5" 5))
      (AnyStep.assign _ "d6" 6)

/-- C1 (amended): for every order reachable by one initial
`assignOrderToDriver` followed by any sequence of `handleDriverResponse`
and `handleDriverTimeoutReassignment` calls, the length of
`driverAssignments` never exceeds `maxAssignmentAttempts` (provided the
configured cap is at least 1; the default is 5): the internal reassignment
paths consult `getNextAvailableDriver`, which refuses a next candidate
once the history has reached the cap. -/
theorem claim1_amended_history_bound (cfg : Config) (s : SvcState)
    (hM : 1 ≤ cfg.maxAssignmentAttempts) (h : ReachableFromAssign cfg s) :
    s.order.driverAssignments.length ≤ cfg.maxAssignmentAttempts :=
  reachable_length hM h

/-- C1 (witness): the amended bound instantiated after the initial
assignment of a fresh order under the default configuration. -/
theorem claim1_amended_history_bound_witness :
    1 ≤ defaultConfig.maxAssignmentAttempts ∧
    (assignOrderToDriver defaultConfig freshState "d1" 0).1.order.driverAssignments.length ≤
      defaultConfig.maxAssignmentAttempts :=
  ⟨by decide, claim1_amended_history_bound defaultConfig _ (by decide)
    (ReachableFromAssign.init "d1" 0)⟩

/-- C2 (counterexample): two external `assignOrderToDriver` calls on a
pending order leave two assignments with status `pending` at once, and the
first pending entry's driver (`A`) differs from `currentDriverId` (`B`)
while the order status is still `pending` — `addDriverAssignment` pushes a
new pending entry without resolving the previous one. -/
theorem claim2_counterexample :
    ReachableAny defaultConfig assignTwo ∧
    pendingCount assignTwo.order = 2 ∧
    assignTwo.order.status = OrderStatus.pending ∧
    assignTwo.order.currentDriverId = some "B" ∧
    assignTwo.order.driverAssignments.map (fun a => (a.driverId, a.status)) =
      [("A", AssignmentStatus.pending), ("B", AssignmentStatus.pending)] := by
  refine ⟨?_, by decide, by decide, by decide, by decide⟩
  exact ReachableAny.step (ReachableAny.step ReachableAny.init
    (AnyStep.assign freshState "A" 1)) (AnyStep.assign _ "B" 2)

/-- C2 (amended): for every order reachable by one initial
`assignOrderToDriver` followed by any sequence of driver responses and
timeout firings, at most one entry of `driverAssignments` is `pending` at
any instant, and while the order status is `pending` every pending entry's
driver equals `currentDriverId`. Repeated external `assignOrderToDriver`
calls on a pending order violate this (see the counterexample). -/
theorem claim2_amended_single_pending (cfg : Config) (s : SvcState)
    (h : ReachableFromAssign cfg s) :
    pendingCount s.order ≤ 1 ∧
    (s.order.status = OrderStatus.pending →
      ∀ a ∈ s.order.driverAssignments, a.status = AssignmentStatus.pending →
        s.order.currentDriverId = some a.driverId) := by
  obtain ⟨front, last, hdas, hfr, hcur⟩ := reachable_shape h
  constructor
  · have h1 : (front.filter fun a => a.status = AssignmentStatus.pending) = [] :=
      List.filter_eq_nil_iff.2 fun a ha => by simpa using hfr a ha
    rw [pendingCount, hdas, List.filter_append, h1, List.nil_append]
    by_cases hp : last.status = AssignmentStatus.pending
    · simp [List.filter, hp]
    · simp [List.filter, hp]
  · intro _ a ha hpa
    rw [hdas] at ha
    rcases List.mem_append.1 ha with h1 | h1
    · exact absurd hpa (hfr a h1)
    · have : a = last := List.mem_singleton.1 h1
      rw [this]
      exact hcur

/-- C2 (witness): the amended invariant instantiated after the initial
assignment of a fresh order under the default configuration. -/
theorem claim2_amended_single_pending_witness :
    pendingCount (assignOrderToDriver defaultConfig freshState "A" 0).1.order ≤ 1 :=
  (claim2_amended_single_pending defaultConfig _ (ReachableFromAssign.init "A" 0)).1

/-- C3: when the reassignment timer fires for an order/driver pair whose
assignment is no longer pending (a response was already recorded),
`handleDriverTimeoutReassignment` is a no-op: it returns the whole state —
status, `driverAssignments`, `reassignmentCount`, `reassignmentLogs` and
the timer entry — unchanged and throws nothing, so the transition already
applied to the offer is the only one. -/
theorem claim3_timeout_noop_after_response (cfg : Config) (s : SvcState) (d : String)
    (now : Nat)
    (h : ∀ a ∈ s.order.driverAssignments, a.driverId = d →
      a.status ≠ AssignmentStatus.pending) :
    handleDriverTimeoutReassignment cfg s d now = (s, none) := by
  have hf : s.order.driverAssignments.find? (isPendingFor d) = none :=
    List.find?_eq_none.2 fun a ha hpa =>
      h a ha (isPendingFor_iff.1 hpa).1 (isPendingFor_iff.1 hpa).2
  rw [handleDriverTimeoutReassignment, hf]

/-- C3 (witness): the no-op at an order whose single assignment to driver
`A` has already been accepted. -/
theorem claim3_witness :
    (∀ a ∈ respondedState.order.driverAssignments, a.driverId = "A" →
      a.status ≠ AssignmentStatus.pending) ∧
    handleDriverTimeoutReassignment defaultConfig respondedState "A" 99 =
      (respondedState, none) :=
  ⟨by decide, claim3_timeout_noop_after_response defaultConfig respondedState "A" 99
    (by decide)⟩

/-- C4 (counterexample): a duplicate driver response is not a benign no-op
acknowledged successfully: on an order whose assignment to driver `A` was
already accepted, a second `handleDriverResponse` call for `A` surfaces
the error `No pending assignment found for this driver` thrown by
`recordDriverResponse` (the saved order itself is left unchanged). -/
theorem claim4_counterexample :
    (handleDriverResponse defaultConfig respondedState "A" true 2).2 =
      some (JsError.domain "No pending assignment found for this driver") ∧
    (handleDriverResponse defaultConfig respondedState "A" true 2).1.order =
      respondedState.order := by
  decide

/-- C4 (amended): a duplicate or late call to `handleDriverResponse` for
the current driver of an order whose assignment is no longer pending
fails with the domain error `No pending assignment found for this driver`
propagated to the caller; the saved order is left unchanged and only the
order's auto-reassignment timer entry is cleared. It is not acknowledged
as a success. -/
theorem claim4_amended_duplicate_response_error (cfg : Config) (s : SvcState)
    (d : String) (acc : Bool) (now : Nat)
    (hcur : s.order.currentDriverId = some d)
    (h : ∀ a ∈ s.order.driverAssignments, a.driverId = d →
      a.status ≠ AssignmentStatus.pending) :
    handleDriverResponse cfg s d acc now =
      ({ s with timer := none },
        some (JsError.domain "No pending assignment found for this driver")) := by
  have hf : s.order.driverAssignments.find? (isPendingFor d) = none :=
    List.find?_eq_none.2 fun a ha hpa =>
      h a ha (isPendingFor_iff.1 hpa).1 (isPendingFor_iff.1 hpa).2
  have hrec : ∀ st : AssignmentStatus,
      s.order.recordDriverResponse d st now =
        Except.error "No pending assignment found for this driver" := fun st => by
    rw [Order.recordDriverResponse, hf]
  cases acc with
  | true => rw [handleDriverResponse_accept_eq now hcur, hrec]
  | false => rw [handleDriverResponse_reject_eq now hcur, hrec]

/-- C4 (witness): the amended behaviour at the already-accepted order. -/
theorem claim4_amended_duplicate_response_error_witness :
    respondedState.order.currentDriverId = some "A" ∧
    handleDriverResponse defaultConfig respondedState "A" false 5 =
      ({ respondedState with timer := none },
        some (JsError.domain "No pending assignment found for this driver")) :=
  ⟨by decide, claim4_amended_duplicate_response_error defaultConfig respondedState "A"
    false 5 (by decide) (by decide)⟩

/-- C5: when the timeout handler runs for a pending assignment and
`getNextAvailableDriver` yields no candidate (provider exhausted or the
history has reached `maxAssignmentAttempts`), the order status becomes
`timeout`, `timeoutAt` is recorded, the timer entry is removed, no new
assignment is appended, and any later `assignOrderToDriver` on the order
fails with the invalid-state error without changing the state. -/
theorem claim5_exhaustion_terminal (cfg : Config) (s : SvcState) (d : String) (now : Nat)
    (hp : (s.order.driverAssignments.find? (isPendingFor d)).isSome = true)
    (hn : getNextAvailableDriver cfg s.order = none) :
    handleDriverTimeoutReassignment cfg s d now =
      ({ order := s.order.markAsTimedOut now, timer := none }, none) ∧
    (s.order.markAsTimedOut now).status = OrderStatus.timeout ∧
    (s.order.markAsTimedOut now).timeoutAt = some now ∧
    (s.order.markAsTimedOut now).driverAssignments = s.order.driverAssignments ∧
    ∀ d2 now2,
      assignOrderToDriver cfg { order := s.order.markAsTimedOut now, timer := none }
          d2 now2 =
        ({ order := s.order.markAsTimedOut now, timer := none },
          some (JsError.domain "Cannot assign: order is not pending")) := by
  obtain ⟨a, ha⟩ := Option.isSome_iff_exists.1 hp
  refine ⟨?_, rfl, rfl, rfl, ?_⟩
  · rw [handleDriverTimeoutReassignment, ha, hn]
  · intro d2 now2
    rw [assignOrderToDriver, if_neg (fun hcontra => OrderStatus.noConfusion hcontra)]

/-- C5 (witness): exhaustion at an order that has tried all five pool
drivers, whose fifth assignment is still pending. -/
theorem claim5_witness :
    (exhaustedPendingState.order.driverAssignments.find?
      (isPendingFor "6123456789abcdef01234571")).isSome = true ∧
    handleDriverTimeoutReassignment defaultConfig exhaustedPendingState
        "6123456789abcdef01234571" 75 =
      ({ order := exhaustedPendingState.order.markAsTimedOut 75, timer := none }, none) :=
  ⟨by decide, (claim5_exhaustion_terminal defaultConfig exhaustedPendingState
    "6123456789abcdef01234571" 75 (by decide) (by decide)).1⟩

/-- C6: starting from a fresh order first offered to one driver, after `N`
consecutive timeout firings for the current driver with a next candidate
available each time: the status is still `pending`, `reassignmentCount`
equals `N`, the history holds `N + 1` assignments of which all but the
last are marked `timed_out` while the last is the open pending offer for
`currentDriverId`, and the reassignment log holds one entry per
reassignment, each with reason `TIMEOUT` and the previous/new driver ids
of that reassignment. -/
theorem claim6_consecutive_timeouts (cfg : Config) (d0 : String) (t0 : Nat) (N : Nat)
    (s : SvcState)
    (h : ConsecTimeouts cfg (assignOrderToDriver cfg freshState d0 t0).1 N s) :
    s.order.status = OrderStatus.pending ∧
    s.order.reassignmentCount = N ∧
    s.order.driverAssignments.length = N + 1 ∧
    s.order.reassignmentLogs.length = N ∧
    (∀ l ∈ s.order.reassignmentLogs, l.reason = "TIMEOUT") ∧
    (∃ front last, s.order.driverAssignments = front ++ [last] ∧
      last.status = AssignmentStatus.pending ∧
      (∀ a ∈ front, a.status = AssignmentStatus.timed_out) ∧
      s.order.currentDriverId = some last.driverId) ∧
    (∀ i, i < N →
      ∃ l, s.order.reassignmentLogs.get? i = some l ∧
        (s.order.driverAssignments.map (·.driverId)).get? i = some l.previousDriverId ∧
        (s.order.driverAssignments.map (·.driverId)).get? (i + 1) =
          some l.newDriverId) := by
  induction h with
  | zero =>
    refine ⟨rfl, rfl, rfl, rfl, ?_, ?_, ?_⟩
    · intro l hl
      cases hl
    · exact ⟨[], { driverId := d0, status := .pending, assignedAt := t0 }, rfl,
        rfl, (by intro a ha; cases ha), rfl⟩
    · intro i hi
      exact absurd hi (Nat.not_lt_zero i)
  | succ hc hcur hnext ih =>
    rename_i n s d now
    obtain ⟨hstat, hcount, hlen, hloglen, hreason, ⟨front, last, hdas, hlpend, hfrt, hcur2⟩,
      hidx⟩ := ih
    have hd : d = last.driverId := by
      rw [hcur] at hcur2
      exact (Option.some.injEq _ _ ▸ hcur2 : d = last.driverId)
    have hfr' : ∀ a ∈ front, ¬ isPendingFor d a = true := by
      intro a ha hpa
      have hst := (isPendingFor_iff.1 hpa).2
      rw [hfrt a ha] at hst
      cases hst
    have hpf : isPendingFor d last = true := isPendingFor_iff.2 ⟨hd.symm, hlpend⟩
    obtain ⟨next, hnx⟩ := Option.isSome_iff_exists.1 hnext
    have hfl : front.length = n := by
      rw [hdas, List.length_append] at hlen
      simpa using hlen
    have hstep : (handleDriverTimeoutReassignment cfg s d now).1 =
        { order := s.order.recordReassignment d next "TIMEOUT" now,
          timer := some next } := by
      rw [handleDriverTimeoutReassignment, hdas, find?_append_last_pos hfr' hpf, hnx]
    rw [hstep]
    have hdas2 : (s.order.recordReassignment d next "TIMEOUT" now).driverAssignments =
        (front ++ [respUpdate AssignmentStatus.timed_out now last]) ++
          [{ driverId := next, status := .pending, assignedAt := now }] := by
      rw [recordReassignment_das, hdas, updateFirst_append_last_pos hfr' hpf]
    have hmap : (s.order.recordReassignment d next "TIMEOUT" now).driverAssignments.map
          (·.driverId) =
        (s.order.driverAssignments.map (·.driverId)) ++ [next] := by
      rw [hdas2, hdas]
      simp [List.map_append, respUpdate_driverId]
    have hlogs : (s.order.recordReassignment d next "TIMEOUT" now).reassignmentLogs =
        s.order.reassignmentLogs ++
          [{ previousDriverId := d, newDriverId := next, reason := "TIMEOUT",
             timestamp := now }] := recordReassignment_logs _ _ _ _ _
    refine ⟨?_, ?_, ?_, ?_, ?_, ?_, ?_⟩
    · rw [recordReassignment_status]
      exact hstat
    · rw [recordReassignment_count, hcount]
    · rw [hdas2, List.length_append, List.length_append]
      simp only [List.length_singleton]
      rw [hfl]
    · rw [hlogs, List.length_append, hloglen]
      rfl
    · intro l hl
      rw [hlogs] at hl
      rcases List.mem_append.1 hl with h1 | h1
      · exact hreason l h1
      · rw [List.mem_singleton.1 h1]
    · refine ⟨front ++ [respUpdate AssignmentStatus.timed_out now last],
        { driverId := next, status := .pending, assignedAt := now }, hdas2, rfl, ?_,
        recordReassignment_current _ _ _ _ _⟩
      intro a ha
      rcases List.mem_append.1 ha with h1 | h1
      · exact hfrt a h1
      · rw [List.mem_singleton.1 h1]
        rfl
    · intro i hi
      have hdl : (s.order.driverAssignments.map (·.driverId)).length = n + 1 := by
        rw [List.length_map, hlen]
      by_cases hin : i < n
      · obtain ⟨l, hl1, hl2, hl3⟩ := hidx i hin
        refine ⟨l, ?_, ?_, ?_⟩
        · rw [hlogs, List.get?_append (by rw [hloglen]; exact hin), hl1]
        · rw [hmap, List.get?_append (by rw [hdl]; omega), hl2]
        · rw [hmap, List.get?_append (by rw [hdl]; omega), hl3]
      · have hieq : i = n := by omega
        subst hieq
        refine ⟨⟨d, next, "TIMEOUT", now⟩, ?_, ?_, ?_⟩
        · rw [hlogs, ← hloglen]
          exact List.get?_concat_length _ _
        · rw [hmap, List.get?_append (by omega)]
          have : (s.order.driverAssignments.map (·.driverId)).get? i =
              some last.driverId := by
            rw [hdas, List.map_append]
            have hml : (front.map (·.driverId)).length = i := by
              rw [List.length_map, hfl]
            rw [← hml]
            exact List.get?_concat_length _ _
          rw [this, hd]
        · rw [hmap, ← hdl]
          exact List.get?_concat_length _ _

/-- C6 (witness): one timeout reassignment after the initial assignment of
a fresh order to driver `d0`, with pool driver 1 as the next candidate. -/
theorem claim6_consecutive_timeouts_witness :
    oneTimeoutState.order.reassignmentCount = 1 ∧
    oneTimeoutState.order.status = OrderStatus.pending ∧
    oneTimeoutState.order.reassignmentLogs.length = 1 := by
  have hc : ConsecTimeouts defaultConfig oneAssignState 1 oneTimeoutState :=
    ConsecTimeouts.succ ConsecTimeouts.zero rfl (by decide)
  have hall := claim6_consecutive_timeouts defaultConfig "d0" 0 1 oneTimeoutState hc
  exact ⟨hall.2.1, hall.1, hall.2.2.2.1⟩

/-- C7: with reassignment notifications enabled and the per-order cap not
yet reached, `notifyCustomerAboutReassignment` sends no customer-facing
message when `reassignmentCount` is 1 or 0 — it returns a skipped result
and the notification counter is untouched — and does produce a message
(with the counter incremented) when `reassignmentCount` is 2 or more. -/
theorem claim7_reassignment_notification_threshold (cfg : NotifConfig) (ns : NotifState)
    (orderId : String) (view : OrderView) (gen : OrderView → String → String) (rc : Nat)
    (he : cfg.enableReassignmentNotifications = true)
    (hcap : getNotificationCount ns orderId < cfg.maxNotificationsPerOrder) :
    (rc ≤ 1 →
      notifyCustomerAboutReassignment cfg ns orderId (some view) gen rc =
        ({ success := false, skipped := true }, ns)) ∧
    (2 ≤ rc →
      (notifyCustomerAboutReassignment cfg ns orderId (some view) gen rc).1 =
        { success := true, message := some (gen view "reassignment_reason") } ∧
      getNotificationCount
        (notifyCustomerAboutReassignment cfg ns orderId (some view) gen rc).2 orderId =
        getNotificationCount ns orderId + 1) := by
  constructor
  · intro hrc
    simp [notifyCustomerAboutReassignment, he, hrc]
  · intro hrc
    have hrc' : ¬ rc ≤ 1 := by omega
    have hlim : shouldLimitNotifications cfg ns orderId = false := by
      simp [shouldLimitNotifications]
      omega
    constructor
    · simp [notifyCustomerAboutReassignment, he, hrc',
        notifyCustomerAboutOrderStatus, hlim]
    · simp [notifyCustomerAboutReassignment, he, hrc',
        notifyCustomerAboutOrderStatus, hlim, incrementNotificationCounter,
        getNotificationCount]

/-- C7 (witness): with notifications enabled, no notification sent yet and
the fallback table as generator, reassignment 1 is skipped and
reassignment 2 produces a message. -/
theorem claim7_reassignment_notification_threshold_witness :
    notifCfgEnabled.enableReassignmentNotifications = true ∧
    getNotificationCount zeroCounters "o1" < notifCfgEnabled.maxNotificationsPerOrder ∧
    notifyCustomerAboutReassignment notifCfgEnabled zeroCounters "o1"
        (some timedOutView) getFallbackMessage 1 =
      ({ success := false, skipped := true }, zeroCounters) ∧
    (notifyCustomerAboutReassignment notifCfgEnabled zeroCounters "o1"
        (some timedOutView) getFallbackMessage 2).1 =
      { success := true,
        message := some (getFallbackMessage timedOutView "reassignment_reason") } :=
  ⟨rfl, by decide,
   (claim7_reassignment_notification_threshold notifCfgEnabled zeroCounters "o1"
     timedOutView getFallbackMessage 1 rfl (by decide)).1 (by decide),
   ((claim7_reassignment_notification_threshold notifCfgEnabled zeroCounters "o1"
     timedOutView getFallbackMessage 2 rfl (by decide)).2 (by decide)).1⟩

/-- C8 (code bug, failing input): once the per-order notification cap
(default 3) has been reached, `notifyCustomerAboutTimeout` does NOT send
the exhaustion notification: it delegates to
`notifyCustomerAboutOrderStatus`, whose cap check fires first and returns
the limit-reached failure with no message generated and the counter
unchanged — contradicting the code's own comment (`Always notify about
timeouts as they're critical`) and the spec's `always notifies on
exhaustion`. -/
theorem claim8_timeout_notification_capped :
    (notifyCustomerAboutTimeout notifCfgEnabled cappedCounters "o1" (some timedOutView)
      getFallbackMessage).1 =
      { success := false, message := some "Notification limit reached for this order" } ∧
    getNotificationCount
      (notifyCustomerAboutTimeout notifCfgEnabled cappedCounters "o1" (some timedOutView)
        getFallbackMessage).2 "o1" = 3 :=
  ⟨rfl, rfl⟩

/-- C9: `generateOrderStatusMessage` is total with respect to
text-generation failures: whenever the modelled API call throws, the
function returns the fixed fallback message for the query type instead of
propagating the error (its result type is a plain `String`, so no failure
reaches the caller), and for any query type other than the three special
ones the fallback is the default status message. -/
theorem claim9_generation_failure_fallback (orderData : OrderView) (queryType : String)
    (err : String) :
    generateOrderStatusMessage orderData queryType (Except.error err) =
      getFallbackMessage orderData queryType ∧
    (queryType ≠ "reassignment_reason" → queryType ≠ "delay_explanation" →
      queryType ≠ "timeout_explanation" →
      getFallbackMessage orderData queryType =
        "O status atual do seu pedido #" ++ orderData.orderId ++ " é: " ++
          orderData.status ++ ". Obrigado pela paciência.") := by
  refine ⟨rfl, ?_⟩
  intro h1 h2 h3
  rw [getFallbackMessage, if_neg h1, if_neg h2, if_neg h3]

/-- C9 (witness): a failed generation for an unknown query type falls back
to the default status message. -/
theorem claim9_generation_failure_fallback_witness :
    generateOrderStatusMessage pendingView "general_status" (Except.error "boom") =
      getFallbackMessage pendingView "general_status" ∧
    getFallbackMessage pendingView "general_status" =
      "O status atual do seu pedido #" ++ pendingView.orderId ++ " é: " ++
        pendingView.status ++ ". Obrigado pela paciência." :=
  ⟨(claim9_generation_failure_fallback pendingView "general_status" "boom").1,
   (claim9_generation_failure_fallback pendingView "general_status" "boom").2
     (by decide) (by decide) (by decide)⟩

theorem not_typeError_cases (e : Option JsError) (h : isTypeError e = false) :
    e = none ∨ isDomainError e = true := by
  cases e with
  | none => exact Or.inl rfl
  | some je =>
    cases je with
    | domain m => exact Or.inr rfl
    | typeError m => exact Bool.noConfusion h

/-- C10 (counterexample): `handleDriverResponse` on an existing order that
has never had a driver assigned (`currentDriverId` is null) dereferences
null — `order.currentDriverId.toString()` raises a `TypeError`, not a
domain error. -/
theorem claim10_counterexample :
    isTypeError (handleDriverResponse defaultConfig freshState "A" true 0).2 = true ∧
    isDomainError (handleDriverResponse defaultConfig freshState "A" true 0).2 = false ∧
    (handleDriverResponse defaultConfig freshState "A" true 0).2 ≠ none := by
  decide

/-- C10 (amended): for every order whose `currentDriverId` is non-null,
`handleDriverResponse` never raises a `TypeError` — it returns the order
or fails with a domain error; the null dereference occurs exactly on
orders that exist but were never assigned a driver. -/
theorem claim10_amended_no_typeerror_when_assigned (cfg : Config) (s : SvcState)
    (d : String) (acc : Bool) (now : Nat) (cur : String)
    (hcur : s.order.currentDriverId = some cur) :
    isTypeError (handleDriverResponse cfg s d acc now).2 = false ∧
    ((handleDriverResponse cfg s d acc now).2 = none ∨
      isDomainError (handleDriverResponse cfg s d acc now).2 = true) := by
  have hty : isTypeError (handleDriverResponse cfg s d acc now).2 = false := by
    by_cases hd : cur = d
    · subst hd
      cases acc with
      | true =>
        rw [handleDriverResponse_accept_eq now hcur]
        cases hr : s.order.recordDriverResponse cur AssignmentStatus.accepted now with
        | error e => rfl
        | ok o => rfl
      | false =>
        rw [handleDriverResponse_reject_eq now hcur]
        cases hr : s.order.recordDriverResponse cur AssignmentStatus.rejected now with
        | error e => rfl
        | ok o =>
          dsimp only
          cases hn : getNextAvailableDriver cfg o with
          | none => rfl
          | some next => rfl
    · rw [handleDriverResponse_not_cur_eq acc now hcur hd]
      rfl
  exact ⟨hty, not_typeError_cases _ hty⟩

/-- C10 (witness): the amended safety at an order currently assigned to
driver `A`, answered by a different driver `B`. -/
theorem claim10_amended_no_typeerror_when_assigned_witness :
    respondedState.order.currentDriverId = some "A" ∧
    isTypeError (handleDriverResponse defaultConfig respondedState "B" true 7).2 = false :=
  ⟨rfl, (claim10_amended_no_typeerror_when_assigned defaultConfig respondedState "B"
    true 7 "A" rfl).1⟩

end OrderReassign
